import Mathlib

/-!
Shallow embedding of `src/next/src/components/AutonomousAgent.ts` (AgentGPT).

The `AutonomousAgent` class drives an autonomous execution loop over a mutable
task store.  We embed its mutable fields, together with the external message
store it reads through `useMessageStore` and the callbacks it fires
(`renderMessage`, `handlePause`, `shutdown`), as a single explicit state
record.  The async Execution Backend (`AgentApi`) is modelled as a
deterministic oracle passed in as an environment.  TypeScript `await`s of
`setTimeout` are pure delays and are dropped; every other statement is
translated in source order.
-/

namespace AgentGPT

/-- Task statuses, from `types/agentTypes` (`TASK_STATUS_STARTED`, ...;
constants not under `src/`, values named by the spec task state machine). -/
inductive TaskStatus
  | started
  | executing
  | completed
  | final
deriving DecidableEq, Repr

/-- Agent orchestration modes, from `types/agentTypes`
(`AUTOMATIC_MODE` / `PAUSE_MODE`). -/
inductive AgentMode
  | automatic
  | pause
deriving DecidableEq, Repr

/-- Playback controls, from `types/agentTypes` (`AGENT_PLAY` / `AGENT_PAUSE`). -/
inductive PlaybackControl
  | play
  | pause
deriving DecidableEq, Repr

/-- A task record: `{ taskId, value, status, info?, type: MESSAGE_TYPE_TASK }`. -/
structure Task where
  taskId : String
  value : String
  status : TaskStatus
  info : Option String := none
deriving DecidableEq, Repr

/-- A message sent to `renderMessage`, discriminated by its `type` field
(`MESSAGE_TYPE_GOAL` / `MESSAGE_TYPE_THINKING` / `MESSAGE_TYPE_TASK` /
`MESSAGE_TYPE_SYSTEM`). -/
inductive Message
  | goal (value : String)
  | thinking
  | task (t : Task)
  | system (value : String)
deriving DecidableEq, Repr

/-- Whether a message has type `MESSAGE_TYPE_GOAL`. -/
def Message.isGoal : Message → Bool
  | Message.goal _ => true
  | _ => false

/-- Modelled from the spec: `translate` (src/next/src/utils/translations, not
under `src/`) is the localization table, out of scope per the spec; we let the
user-facing string be its translation key. -/
def translate (key : String) (_ns : String) : String := key

/-- Modelled from the spec: `DEFAULT_MAX_LOOPS_FREE`
(src/next/src/utils/constants, not under `src/`) is the "fixed system
default" loop budget; the claims do not depend on its value. -/
def DEFAULT_MAX_LOOPS_FREE : Nat := 4

/-- The part of `ModelSettings` the agent reads: `customMaxLoops`.
`none` stands for the JS field being `undefined`. -/
structure ModelSettings where
  customMaxLoops : Option Nat
deriving DecidableEq, Repr

/-- The constructor arguments that stay fixed over a run, plus the
`useAgentStore.getState().isWebSearchEnabled` flag read by the loop. -/
structure Config where
  goal : String
  modelSettings : ModelSettings
  mode : AgentMode
  isWebSearchEnabled : Bool

/-- `maxLoops()`: `this.modelSettings.customMaxLoops || DEFAULT_MAX_LOOPS_FREE`.
JS `||` falls through to the default when `customMaxLoops` is `undefined`
or the falsy `0`. -/
def maxLoops (cfg : Config) : Nat :=
  match cfg.modelSettings.customMaxLoops with
  | some n => if n = 0 then DEFAULT_MAX_LOOPS_FREE else n
  | none => DEFAULT_MAX_LOOPS_FREE

/-- Constructor line 65:
`this.playbackControl = playbackControl || this.mode == PAUSE_MODE ? AGENT_PAUSE : AGENT_PLAY;`.
In JS `||` binds tighter than `?:`, so this parses as
`(playbackControl || this.mode == PAUSE_MODE) ? AGENT_PAUSE : AGENT_PLAY`.
`AGENT_PLAY` and `AGENT_PAUSE` are nonempty string constants (truthy), so a
provided `playbackControl` argument makes the condition truthy. -/
def initPlaybackControl (mode : AgentMode) (playbackControl : Option PlaybackControl) :
    PlaybackControl :=
  if playbackControl.isSome || mode = AgentMode.pause then PlaybackControl.pause
  else PlaybackControl.play

/-- The per-instance mutable state of `AutonomousAgent`, together with the
externally owned message/task store it reads back through `useMessageStore`
and counters for the injected lifecycle callbacks. -/
structure AgentState where
  isRunning : Bool
  numLoops : Nat
  completedTasks : List String
  playbackControl : PlaybackControl
  /-- `useMessageStore.getState().tasks`: the task view of the store. -/
  tasks : List Task
  /-- Every message delivered through `renderMessage`, in order. -/
  messages : List Message
  /-- Number of invocations of the injected `shutdown` callback. -/
  shutdownCount : Nat
  /-- Number of invocations of the injected `handlePause` callback. -/
  pauseCount : Nat
  /-- Modelled from the spec: `v1()` task ids are opaque unique identifiers;
  we draw them from a counter. -/
  nextId : Nat
deriving DecidableEq, Repr

/-- Modelled from the spec: how the external message store folds a task
message into its task view (the stores live in src/next/src/stores, not under
`src/`).  Per the spec, tasks are appended in creation order and thereafter
mutated in place by id, never deleted. -/
def upsertTask (tasks : List Task) (m : Task) : List Task :=
  if tasks.any (fun t => t.taskId = m.taskId) then
    tasks.map (fun t => if t.taskId = m.taskId then m else t)
  else tasks ++ [m]

/-- `sendMessage(message)`: forward to `renderMessage` only while
`this.isRunning`; a delivered task message also reaches the task store. -/
def sendMessage (s : AgentState) (m : Message) : AgentState :=
  if s.isRunning then
    let s1 := { s with messages := s.messages ++ [m] }
    match m with
    | Message.task t => { s1 with tasks := upsertTask s1.tasks t }
    | _ => s1
  else s

/-- The injected `shutdown` lifecycle callback, modelled as a counter bump. -/
def shutdown (s : AgentState) : AgentState :=
  { s with shutdownCount := s.shutdownCount + 1 }

/-- The injected `handlePause` lifecycle callback, modelled as a counter bump. -/
def handlePause (s : AgentState) : AgentState :=
  { s with pauseCount := s.pauseCount + 1 }

/-- `sendGoalMessage()`. -/
def sendGoalMessage (cfg : Config) (s : AgentState) : AgentState :=
  sendMessage s (Message.goal cfg.goal)

/-- `sendThinkingMessage()`. -/
def sendThinkingMessage (s : AgentState) : AgentState :=
  sendMessage s Message.thinking

/-- `sendLoopMessage()`. -/
def sendLoopMessage (s : AgentState) : AgentState :=
  sendMessage s (Message.system (translate "DEMO_LOOPS_REACHED" "errors"))

/-- `sendManualShutdownMessage()`. -/
def sendManualShutdownMessage (s : AgentState) : AgentState :=
  sendMessage s (Message.system (translate "AGENT_MANUALLY_SHUT_DOWN" "errors"))

/-- `sendCompletedMessage()`. -/
def sendCompletedMessage (s : AgentState) : AgentState :=
  sendMessage s (Message.system (translate "ALL_TASKS_COMPLETETD" "errors"))

/-- `sendErrorMessage(error)`. -/
def sendErrorMessage (s : AgentState) (error : String) : AgentState :=
  sendMessage s (Message.system error)

/-- `getRemainingTasks()`: the `Started` tasks of the store, recomputed. -/
def getRemainingTasks (s : AgentState) : List Task :=
  s.tasks.filter (fun t => t.status = TaskStatus.started)

/-- `conditionalPause()`: in pause (Stepwise) mode, run only when the control
is not `AGENT_PAUSE`, and consume an `AGENT_PLAY` by resetting it to
`AGENT_PAUSE` so the next iteration pauses again. -/
def conditionalPause (cfg : Config) (s : AgentState) : AgentState :=
  if cfg.mode ≠ AgentMode.pause then s
  else
    let s1 := { s with isRunning := !(s.playbackControl = PlaybackControl.pause) }
    if s1.playbackControl = PlaybackControl.play then
      { s1 with playbackControl := PlaybackControl.pause }
    else s1

/-- `updatePlayBackControl(newPlaybackControl)`. -/
def updatePlayBackControl (s : AgentState) (newPlaybackControl : PlaybackControl) :
    AgentState :=
  { s with playbackControl := newPlaybackControl }

/-- `updateIsRunning(isRunning)`. -/
def updateIsRunning (s : AgentState) (b : Bool) : AgentState :=
  { s with isRunning := b }

/-- `stopAgent()`: manual-shutdown notice first, then clear the running flag,
then fire the shutdown callback. -/
def stopAgent (s : AgentState) : AgentState :=
  let s1 := sendManualShutdownMessage s
  let s2 := { s1 with isRunning := false }
  shutdown s2

/-- The error values `AgentApi` calls can fail with, as far as
`getMessageFromError` / `onApiError` inspect them: an axios error with an
optional HTTP response status, or anything else. -/
inductive ApiError
  | axiosError (status : Option Nat)
  | other
deriving DecidableEq, Repr

/-- `getMessageFromError(e)`, lines 312-322.  Note the source reads
`if (status === 429) message = ...; if (status === 404) message = ...; else message = ...;`:
the `else` belongs to the 404 test, so for an axios error the second
`if`/`else` always overwrites whatever the 429 test assigned. -/
def getMessageFromError (e : ApiError) : String :=
  let message := "ERROR_RETRIEVE_INITIAL_TASKS"
  match e with
  | ApiError.axiosError status =>
      let message1 := if status = some 429 then "ERROR_API_KEY_QUOTA" else message
      let message2 :=
        if status = some 404 then "ERROR_OPENAI_API_KEY_NO_GPT4"
        else "ERROR_ACCESSING_OPENAI_API_KEY"
      translate message2 "errors"
  | ApiError.other => translate message "errors"

/-- The analysis record returned by `analyzeTask`. -/
structure Analysis where
  reasoning : String
  action : String
  arg : String
deriving DecidableEq, Repr

/-- The default analysis the loop uses when web search is disabled
(source: reasoning "I will just think about it...", action "reason";
the apostrophe of the source wording is elided). -/
def defaultAnalysis : Analysis :=
  { reasoning := "I will just think about it...", action := "reason", arg := "" }

/-- `sendAnalysisMessage(analysis)`. -/
def sendAnalysisMessage (s : AgentState) (analysis : Analysis) : AgentState :=
  let message :=
    if analysis.action = "search" then
      "Searching the web for \"" ++ analysis.arg ++ "\"..."
    else if analysis.action = "wikipedia" then
      "Searching Wikipedia for \"" ++ analysis.arg ++ "\"..."
    else if analysis.action = "image" then
      "Generating an image with prompt: \"" ++ analysis.arg ++ "\"..."
    else if analysis.action = "code" then
      "Writing code..."
    else "Generating response..."
  sendMessage s (Message.system message)

/-- The argument object of `getAdditionalTasks`. -/
structure AddTaskArgs where
  current : String
  remaining : List String
  completed : List String
deriving DecidableEq, Repr

/-- Modelled from the spec: the Execution Backend (`AgentApi`,
src/next/src/services/agent-api, not under `src/`) as a deterministic oracle.
Per the spec interface, `getInitialTasks` and `getAdditionalTasks` may fail
with a backend error; `analyzeTask` and `executeTask` do not throw. -/
structure ApiEnv where
  initialTasks : Except ApiError (List String)
  analyzeTask : String → Analysis
  executeTask : String → Analysis → String
  getAdditionalTasks : AddTaskArgs → String → Except ApiError (List String)

/-- Creation and emission of one new `Started` task
(`{ taskId: v1(), value, status: TASK_STATUS_STARTED, type: MESSAGE_TYPE_TASK }`
followed by `sendMessage(task)`). -/
def addStartedTask (s : AgentState) (value : String) : AgentState :=
  let t : Task :=
    { taskId := toString s.nextId, value := value, status := TaskStatus.started }
  let s1 := { s with nextId := s.nextId + 1 }
  sendMessage s1 (Message.task t)

/-- `startGoal()`: goal message, thinking placeholder, then materialize the
initial decomposition; on failure emit the classified error and shut down. -/
def startGoal (cfg : Config) (env : ApiEnv) (s : AgentState) : AgentState :=
  let s1 := sendGoalMessage cfg s
  let s2 := sendThinkingMessage s1
  match env.initialTasks with
  | Except.ok taskValues => taskValues.foldl addStartedTask s2
  | Except.error e =>
      let s3 := sendErrorMessage s2 (getMessageFromError e)
      shutdown s3

/-- Loop body lines 138-168: mark the current task `Executing`, think,
analyze (only when web search is enabled), execute, mark it `Completed` with
the result, record its value, think again.  Returns the state and the
execution result the follow-up call receives. -/
def execStage (cfg : Config) (env : ApiEnv) (s : AgentState) (currentTask : Task) :
    AgentState × String :=
  let s1 := sendMessage s (Message.task { currentTask with status := TaskStatus.executing })
  let s2 := sendThinkingMessage s1
  let analysis :=
    if cfg.isWebSearchEnabled then env.analyzeTask currentTask.value else defaultAnalysis
  let s3 := if cfg.isWebSearchEnabled then sendAnalysisMessage s2 analysis else s2
  let result := env.executeTask currentTask.value analysis
  let s4 := sendMessage s3
    (Message.task { currentTask with info := some result, status := TaskStatus.completed })
  let s5 := { s4 with completedTasks := s4.completedTasks ++ [currentTask.value] }
  let s6 := sendThinkingMessage s5
  (s6, result)

/-- The follow-up-generation call of lines 172-179: `getAdditionalTasks` with
the current value, the now-remaining task values, the completed history, and
the execution result. -/
def followUpResponse (cfg : Config) (env : ApiEnv) (s : AgentState) (currentTask : Task) :
    Except ApiError (List String) :=
  let p := execStage cfg env s currentTask
  env.getAdditionalTasks
    { current := currentTask.value,
      remaining := (getRemainingTasks p.1).map (fun t => t.value),
      completed := p.1.completedTasks }
    p.2

/-- Loop body lines 138-199: execute the current task, then add follow-up
tasks; on zero follow-ups mark the task `Final`; if the follow-up call throws,
emit the degraded-mode notice and mark the task `Final` instead. -/
def execBody (cfg : Config) (env : ApiEnv) (s : AgentState) (currentTask : Task) :
    AgentState :=
  let p := execStage cfg env s currentTask
  match followUpResponse cfg env s currentTask with
  | Except.ok newTasks =>
      let s1 := newTasks.foldl addStartedTask p.1
      if newTasks.length = 0 then
        sendMessage s1 (Message.task { currentTask with status := TaskStatus.final })
      else s1
  | Except.error _ =>
      let s1 := sendErrorMessage p.1 (translate "ERROR_ADDING_ADDITIONAL_TASKS" "errors")
      sendMessage s1 (Message.task { currentTask with status := TaskStatus.final })

/-- How one invocation of `loop()` returned: at the pause/stop check, at the
completion check, at the budget check, or by recursing into the next
iteration. -/
inductive StepExit
  | notRunning
  | completedAll
  | loopLimit
  | next
deriving DecidableEq, Repr

/-- One iteration of `loop()` (lines 113-201 up to the tail recursion):
pause check, completion check, budget check, then the task-execution body.
Matching on `getRemainingTasks` combines the emptiness test with the
`getRemainingTasks()[0]` head selection (nothing mutates the store between
the two reads). -/
def stepLoop (cfg : Config) (env : ApiEnv) (s : AgentState) : StepExit × AgentState :=
  let s1 := conditionalPause cfg s
  if ¬ s1.isRunning then (StepExit.notRunning, s1)
  else
    match getRemainingTasks s1 with
    | [] => (StepExit.completedAll, shutdown (sendCompletedMessage s1))
    | currentTask :: _ =>
        let s2 := { s1 with numLoops := s1.numLoops + 1 }
        if s2.numLoops > maxLoops cfg then (StepExit.loopLimit, shutdown (sendLoopMessage s2))
        else (StepExit.next, execBody cfg env s2 currentTask)

/-- The tail-recursive `loop()`, driven by explicit fuel.  An exit of
`StepExit.next` at fuel `0` marks a run cut off before reaching any of the
return points of the source (the source recursion is bounded by the budget check,
so any fuel above `maxLoops` is enough). -/
def loopRun (cfg : Config) (env : ApiEnv) : Nat → AgentState → StepExit × AgentState
  | 0, s => (StepExit.next, s)
  | fuel + 1, s =>
      match stepLoop cfg env s with
      | (StepExit.next, s1) => loopRun cfg env fuel s1
      | r => r

/-- The tail of `run()`: report a Stepwise pause through `handlePause`
(`if (this.mode === PAUSE_MODE && !this.isRunning)`). -/
def runTail (cfg : Config) (s2 : AgentState) : AgentState :=
  if cfg.mode = AgentMode.pause ∧ s2.isRunning = false then handlePause s2 else s2

/-- `run()`: bootstrap via `startGoal` when the running flag is down, then
`loop()`, then report a Stepwise pause through `handlePause`. -/
def run (cfg : Config) (env : ApiEnv) (fuel : Nat) (s : AgentState) : AgentState :=
  let s1 := if ¬ s.isRunning then startGoal cfg env { s with isRunning := true } else s
  runTail cfg (loopRun cfg env fuel s1).2

/-- The state of a freshly constructed agent (before any `run()`), with the
playback control computed by constructor line 65. -/
def initialState (cfg : Config) (playbackControl : Option PlaybackControl) : AgentState :=
  { isRunning := false
    numLoops := 0
    completedTasks := []
    playbackControl := initPlaybackControl cfg.mode playbackControl
    tasks := []
    messages := []
    shutdownCount := 0
    pauseCount := 0
    nextId := 0 }

/-- Count of goal-typed messages delivered so far; `startGoal` is the one
emitter of goal messages, so this counts bootstrap executions that reached
the sink. -/
def countGoals (s : AgentState) : Nat :=
  (s.messages.filter Message.isGoal).length

/-! ### Frame lemmas for the message-sending primitives -/

@[simp]
theorem sendMessage_isRunning (s : AgentState) (m : Message) :
    (sendMessage s m).isRunning = s.isRunning := by
  unfold sendMessage; split
  · cases m <;> rfl
  · rfl

@[simp]
theorem sendMessage_numLoops (s : AgentState) (m : Message) :
    (sendMessage s m).numLoops = s.numLoops := by
  unfold sendMessage; split
  · cases m <;> rfl
  · rfl

@[simp]
theorem sendMessage_shutdownCount (s : AgentState) (m : Message) :
    (sendMessage s m).shutdownCount = s.shutdownCount := by
  unfold sendMessage; split
  · cases m <;> rfl
  · rfl

@[simp]
theorem sendMessage_playbackControl (s : AgentState) (m : Message) :
    (sendMessage s m).playbackControl = s.playbackControl := by
  unfold sendMessage; split
  · cases m <;> rfl
  · rfl

@[simp]
theorem sendMessage_completedTasks (s : AgentState) (m : Message) :
    (sendMessage s m).completedTasks = s.completedTasks := by
  unfold sendMessage; split
  · cases m <;> rfl
  · rfl

@[simp]
theorem sendMessage_pauseCount (s : AgentState) (m : Message) :
    (sendMessage s m).pauseCount = s.pauseCount := by
  unfold sendMessage; split
  · cases m <;> rfl
  · rfl

@[simp]
theorem sendMessage_nextId (s : AgentState) (m : Message) :
    (sendMessage s m).nextId = s.nextId := by
  unfold sendMessage; split
  · cases m <;> rfl
  · rfl

theorem sendMessage_of_not_running (s : AgentState) (m : Message)
    (h : s.isRunning = false) : sendMessage s m = s := by
  unfold sendMessage
  rw [h]
  simp

theorem sendMessage_messages_of_running (s : AgentState) (m : Message)
    (h : s.isRunning = true) : (sendMessage s m).messages = s.messages ++ [m] := by
  unfold sendMessage
  rw [h]
  cases m <;> rfl

theorem sendMessage_nontask_of_running (s : AgentState) (m : Message)
    (h : s.isRunning = true) (ht : ∀ t, m ≠ Message.task t) :
    sendMessage s m = { s with messages := s.messages ++ [m] } := by
  unfold sendMessage
  rw [h]
  cases m with
  | task t => exact absurd rfl (ht t)
  | goal v => simp
  | thinking => simp
  | system v => simp

theorem sendMessage_task_of_running (s : AgentState) (t : Task)
    (h : s.isRunning = true) :
    sendMessage s (Message.task t) =
      { s with messages := s.messages ++ [Message.task t],
               tasks := upsertTask s.tasks t } := by
  unfold sendMessage
  rw [h]
  simp

@[simp]
theorem sendMessage_tasks_nontask (s : AgentState) (m : Message)
    (ht : ∀ t, m ≠ Message.task t) : (sendMessage s m).tasks = s.tasks := by
  unfold sendMessage; split
  · cases m with
    | task t => exact absurd rfl (ht t)
    | goal v => rfl
    | thinking => rfl
    | system v => rfl
  · rfl

theorem filterGoal_sendMessage (s : AgentState) (m : Message)
    (h : m.isGoal = false) :
    (sendMessage s m).messages.filter Message.isGoal =
      s.messages.filter Message.isGoal := by
  unfold sendMessage
  split
  · cases m <;> simp_all [List.filter_append, Message.isGoal]
  · rfl

theorem countGoals_sendMessage (s : AgentState) (m : Message)
    (h : m.isGoal = false) : countGoals (sendMessage s m) = countGoals s := by
  unfold countGoals
  rw [filterGoal_sendMessage s m h]

theorem countGoals_sendMessage_goal (s : AgentState) (v : String)
    (h : s.isRunning = true) :
    countGoals (sendMessage s (Message.goal v)) = countGoals s + 1 := by
  unfold countGoals sendMessage
  rw [h]
  simp [List.filter_append, Message.isGoal]

/-! ### Frame lemmas for task creation, callbacks and the pause check -/

@[simp]
theorem addStartedTask_isRunning (s : AgentState) (v : String) :
    (addStartedTask s v).isRunning = s.isRunning := by
  unfold addStartedTask; simp

@[simp]
theorem addStartedTask_numLoops (s : AgentState) (v : String) :
    (addStartedTask s v).numLoops = s.numLoops := by
  unfold addStartedTask; simp

@[simp]
theorem addStartedTask_shutdownCount (s : AgentState) (v : String) :
    (addStartedTask s v).shutdownCount = s.shutdownCount := by
  unfold addStartedTask; simp

@[simp]
theorem addStartedTask_playbackControl (s : AgentState) (v : String) :
    (addStartedTask s v).playbackControl = s.playbackControl := by
  unfold addStartedTask; simp

@[simp]
theorem addStartedTask_pauseCount (s : AgentState) (v : String) :
    (addStartedTask s v).pauseCount = s.pauseCount := by
  unfold addStartedTask; simp

theorem filterGoal_addStartedTask (s : AgentState) (v : String) :
    (addStartedTask s v).messages.filter Message.isGoal =
      s.messages.filter Message.isGoal := by
  unfold addStartedTask
  rw [filterGoal_sendMessage]
  rfl

theorem countGoals_addStartedTask (s : AgentState) (v : String) :
    countGoals (addStartedTask s v) = countGoals s := by
  unfold countGoals
  rw [filterGoal_addStartedTask]

theorem foldl_addStartedTask_isRunning (l : List String) (s : AgentState) :
    (l.foldl addStartedTask s).isRunning = s.isRunning := by
  induction l generalizing s with
  | nil => rfl
  | cons v vs ih => simp [List.foldl_cons, ih]

theorem foldl_addStartedTask_numLoops (l : List String) (s : AgentState) :
    (l.foldl addStartedTask s).numLoops = s.numLoops := by
  induction l generalizing s with
  | nil => rfl
  | cons v vs ih => simp [List.foldl_cons, ih]

theorem foldl_addStartedTask_shutdownCount (l : List String) (s : AgentState) :
    (l.foldl addStartedTask s).shutdownCount = s.shutdownCount := by
  induction l generalizing s with
  | nil => rfl
  | cons v vs ih => simp [List.foldl_cons, ih]

theorem foldl_addStartedTask_playbackControl (l : List String) (s : AgentState) :
    (l.foldl addStartedTask s).playbackControl = s.playbackControl := by
  induction l generalizing s with
  | nil => rfl
  | cons v vs ih => simp [List.foldl_cons, ih]

theorem foldl_addStartedTask_pauseCount (l : List String) (s : AgentState) :
    (l.foldl addStartedTask s).pauseCount = s.pauseCount := by
  induction l generalizing s with
  | nil => rfl
  | cons v vs ih => simp [List.foldl_cons, ih]

theorem filterGoal_foldl_addStartedTask (l : List String) (s : AgentState) :
    (l.foldl addStartedTask s).messages.filter Message.isGoal =
      s.messages.filter Message.isGoal := by
  induction l generalizing s with
  | nil => rfl
  | cons v vs ih => rw [List.foldl_cons, ih, filterGoal_addStartedTask]

theorem countGoals_foldl_addStartedTask (l : List String) (s : AgentState) :
    countGoals (l.foldl addStartedTask s) = countGoals s := by
  unfold countGoals
  rw [filterGoal_foldl_addStartedTask]

@[simp]
theorem shutdown_messages (s : AgentState) : (shutdown s).messages = s.messages := rfl

@[simp]
theorem shutdown_shutdownCount (s : AgentState) :
    (shutdown s).shutdownCount = s.shutdownCount + 1 := rfl

@[simp]
theorem shutdown_numLoops (s : AgentState) : (shutdown s).numLoops = s.numLoops := rfl

@[simp]
theorem shutdown_tasks (s : AgentState) : (shutdown s).tasks = s.tasks := rfl

@[simp]
theorem shutdown_isRunning (s : AgentState) : (shutdown s).isRunning = s.isRunning := rfl

@[simp]
theorem shutdown_playbackControl (s : AgentState) :
    (shutdown s).playbackControl = s.playbackControl := rfl

@[simp]
theorem shutdown_completedTasks (s : AgentState) :
    (shutdown s).completedTasks = s.completedTasks := rfl

@[simp]
theorem handlePause_messages (s : AgentState) : (handlePause s).messages = s.messages := rfl

@[simp]
theorem handlePause_shutdownCount (s : AgentState) :
    (handlePause s).shutdownCount = s.shutdownCount := rfl

@[simp]
theorem handlePause_isRunning (s : AgentState) :
    (handlePause s).isRunning = s.isRunning := rfl

@[simp]
theorem countGoals_shutdown (s : AgentState) : countGoals (shutdown s) = countGoals s := rfl

@[simp]
theorem countGoals_handlePause (s : AgentState) : countGoals (handlePause s) = countGoals s := rfl

theorem conditionalPause_of_not_pauseMode (cfg : Config) (s : AgentState)
    (h : cfg.mode ≠ AgentMode.pause) : conditionalPause cfg s = s := by
  unfold conditionalPause
  rw [if_pos h]

theorem conditionalPause_pause (cfg : Config) (s : AgentState)
    (hm : cfg.mode = AgentMode.pause) (hc : s.playbackControl = PlaybackControl.pause) :
    conditionalPause cfg s = { s with isRunning := false } := by
  unfold conditionalPause
  rw [if_neg (by simp [hm])]
  simp [hc]

theorem conditionalPause_play (cfg : Config) (s : AgentState)
    (hm : cfg.mode = AgentMode.pause) (hc : s.playbackControl = PlaybackControl.play) :
    conditionalPause cfg s =
      { s with isRunning := true, playbackControl := PlaybackControl.pause } := by
  unfold conditionalPause
  rw [if_neg (by simp [hm])]
  simp [hc]

theorem conditionalPause_cases (cfg : Config) (s : AgentState) :
    conditionalPause cfg s = s ∨
    conditionalPause cfg s = { s with isRunning := false } ∨
    conditionalPause cfg s =
      { s with isRunning := true, playbackControl := PlaybackControl.pause } := by
  by_cases hm : cfg.mode = AgentMode.pause
  · by_cases hc : s.playbackControl = PlaybackControl.play
    · exact Or.inr (Or.inr (conditionalPause_play cfg s hm hc))
    · have hc2 : s.playbackControl = PlaybackControl.pause := by
        cases h : s.playbackControl
        · exact absurd h hc
        · rfl
      exact Or.inr (Or.inl (conditionalPause_pause cfg s hm hc2))
  · exact Or.inl (conditionalPause_of_not_pauseMode cfg s hm)

@[simp]
theorem conditionalPause_numLoops (cfg : Config) (s : AgentState) :
    (conditionalPause cfg s).numLoops = s.numLoops := by
  rcases conditionalPause_cases cfg s with h | h | h <;> rw [h]

@[simp]
theorem conditionalPause_tasks (cfg : Config) (s : AgentState) :
    (conditionalPause cfg s).tasks = s.tasks := by
  rcases conditionalPause_cases cfg s with h | h | h <;> rw [h]

@[simp]
theorem conditionalPause_messages (cfg : Config) (s : AgentState) :
    (conditionalPause cfg s).messages = s.messages := by
  rcases conditionalPause_cases cfg s with h | h | h <;> rw [h]

@[simp]
theorem conditionalPause_shutdownCount (cfg : Config) (s : AgentState) :
    (conditionalPause cfg s).shutdownCount = s.shutdownCount := by
  rcases conditionalPause_cases cfg s with h | h | h <;> rw [h]

@[simp]
theorem conditionalPause_completedTasks (cfg : Config) (s : AgentState) :
    (conditionalPause cfg s).completedTasks = s.completedTasks := by
  rcases conditionalPause_cases cfg s with h | h | h <;> rw [h]

@[simp]
theorem conditionalPause_pauseCount (cfg : Config) (s : AgentState) :
    (conditionalPause cfg s).pauseCount = s.pauseCount := by
  rcases conditionalPause_cases cfg s with h | h | h <;> rw [h]

@[simp]
theorem countGoals_conditionalPause (cfg : Config) (s : AgentState) :
    countGoals (conditionalPause cfg s) = countGoals s := by
  unfold countGoals
  rw [conditionalPause_messages]

@[simp]
theorem getRemainingTasks_conditionalPause (cfg : Config) (s : AgentState) :
    getRemainingTasks (conditionalPause cfg s) = getRemainingTasks s := by
  unfold getRemainingTasks
  rw [conditionalPause_tasks]

/-! ### Frame lemmas for the iteration body -/

theorem execStage_isRunning (cfg : Config) (env : ApiEnv) (s : AgentState) (t : Task) :
    (execStage cfg env s t).1.isRunning = s.isRunning := by
  by_cases hw : cfg.isWebSearchEnabled <;>
    simp [execStage, sendThinkingMessage, sendAnalysisMessage, hw]

theorem execStage_numLoops (cfg : Config) (env : ApiEnv) (s : AgentState) (t : Task) :
    (execStage cfg env s t).1.numLoops = s.numLoops := by
  by_cases hw : cfg.isWebSearchEnabled <;>
    simp [execStage, sendThinkingMessage, sendAnalysisMessage, hw]

theorem execStage_shutdownCount (cfg : Config) (env : ApiEnv) (s : AgentState) (t : Task) :
    (execStage cfg env s t).1.shutdownCount = s.shutdownCount := by
  by_cases hw : cfg.isWebSearchEnabled <;>
    simp [execStage, sendThinkingMessage, sendAnalysisMessage, hw]

theorem execStage_playbackControl (cfg : Config) (env : ApiEnv) (s : AgentState) (t : Task) :
    (execStage cfg env s t).1.playbackControl = s.playbackControl := by
  by_cases hw : cfg.isWebSearchEnabled <;>
    simp [execStage, sendThinkingMessage, sendAnalysisMessage, hw]

theorem execStage_pauseCount (cfg : Config) (env : ApiEnv) (s : AgentState) (t : Task) :
    (execStage cfg env s t).1.pauseCount = s.pauseCount := by
  by_cases hw : cfg.isWebSearchEnabled <;>
    simp [execStage, sendThinkingMessage, sendAnalysisMessage, hw]

theorem filterGoal_execStage (cfg : Config) (env : ApiEnv) (s : AgentState) (t : Task) :
    (execStage cfg env s t).1.messages.filter Message.isGoal =
      s.messages.filter Message.isGoal := by
  by_cases hw : cfg.isWebSearchEnabled <;>
    simp [execStage, sendThinkingMessage, sendAnalysisMessage, hw,
      filterGoal_sendMessage, Message.isGoal]

theorem countGoals_execStage (cfg : Config) (env : ApiEnv) (s : AgentState) (t : Task) :
    countGoals (execStage cfg env s t).1 = countGoals s := by
  unfold countGoals
  rw [filterGoal_execStage]

theorem execBody_numLoops (cfg : Config) (env : ApiEnv) (s : AgentState) (t : Task) :
    (execBody cfg env s t).numLoops = s.numLoops := by
  unfold execBody
  cases h : followUpResponse cfg env s t with
  | ok newTasks =>
      by_cases hz : newTasks.length = 0 <;>
        simp [hz, foldl_addStartedTask_numLoops, execStage_numLoops]
  | error e =>
      simp [sendErrorMessage, execStage_numLoops]

theorem execBody_shutdownCount (cfg : Config) (env : ApiEnv) (s : AgentState) (t : Task) :
    (execBody cfg env s t).shutdownCount = s.shutdownCount := by
  unfold execBody
  cases h : followUpResponse cfg env s t with
  | ok newTasks =>
      by_cases hz : newTasks.length = 0 <;>
        simp [hz, foldl_addStartedTask_shutdownCount, execStage_shutdownCount]
  | error e =>
      simp [sendErrorMessage, execStage_shutdownCount]

theorem execBody_playbackControl (cfg : Config) (env : ApiEnv) (s : AgentState) (t : Task) :
    (execBody cfg env s t).playbackControl = s.playbackControl := by
  unfold execBody
  cases h : followUpResponse cfg env s t with
  | ok newTasks =>
      by_cases hz : newTasks.length = 0 <;>
        simp [hz, foldl_addStartedTask_playbackControl, execStage_playbackControl]
  | error e =>
      simp [sendErrorMessage, execStage_playbackControl]

theorem execBody_pauseCount (cfg : Config) (env : ApiEnv) (s : AgentState) (t : Task) :
    (execBody cfg env s t).pauseCount = s.pauseCount := by
  unfold execBody
  cases h : followUpResponse cfg env s t with
  | ok newTasks =>
      by_cases hz : newTasks.length = 0 <;>
        simp [hz, foldl_addStartedTask_pauseCount, execStage_pauseCount]
  | error e =>
      simp [sendErrorMessage, execStage_pauseCount]

/-- Exhaustive description of the four ways one `loop()` iteration can go:
the pause/stop return, the completion return, the budget return, and the
recursion into the body. -/
theorem stepLoop_shape (cfg : Config) (env : ApiEnv) (s : AgentState) :
    ((conditionalPause cfg s).isRunning = false ∧
      stepLoop cfg env s = (StepExit.notRunning, conditionalPause cfg s)) ∨
    ((conditionalPause cfg s).isRunning = true ∧ getRemainingTasks s = [] ∧
      stepLoop cfg env s =
        (StepExit.completedAll, shutdown (sendCompletedMessage (conditionalPause cfg s)))) ∨
    (∃ t rest, (conditionalPause cfg s).isRunning = true ∧
      getRemainingTasks s = t :: rest ∧ maxLoops cfg < s.numLoops + 1 ∧
      stepLoop cfg env s =
        (StepExit.loopLimit,
          shutdown (sendLoopMessage
            { conditionalPause cfg s with numLoops := s.numLoops + 1 }))) ∨
    (∃ t rest, (conditionalPause cfg s).isRunning = true ∧
      getRemainingTasks s = t :: rest ∧ s.numLoops + 1 ≤ maxLoops cfg ∧
      stepLoop cfg env s =
        (StepExit.next,
          execBody cfg env { conditionalPause cfg s with numLoops := s.numLoops + 1 } t)) := by
  unfold stepLoop
  by_cases hr : (conditionalPause cfg s).isRunning = true
  · rw [if_neg (by simp [hr])]
    rw [getRemainingTasks_conditionalPause]
    rcases hrem : getRemainingTasks s with _ | ⟨t, rest⟩
    · exact Or.inr (Or.inl ⟨hr, rfl, rfl⟩)
    · by_cases hb : maxLoops cfg < s.numLoops + 1
      · refine Or.inr (Or.inr (Or.inl ⟨t, rest, hr, rfl, hb, ?_⟩))
        simp [conditionalPause_numLoops, hb]
      · refine Or.inr (Or.inr (Or.inr ⟨t, rest, hr, rfl, by omega, ?_⟩))
        simp [conditionalPause_numLoops, hb]
  · rw [if_pos (by simpa using hr)]
    exact Or.inl ⟨by simpa using hr, rfl⟩

theorem countGoals_execBody (cfg : Config) (env : ApiEnv) (s : AgentState) (t : Task) :
    countGoals (execBody cfg env s t) = countGoals s := by
  unfold execBody countGoals
  cases h : followUpResponse cfg env s t with
  | ok newTasks =>
      by_cases hz : newTasks.length = 0 <;>
        simp [hz, filterGoal_foldl_addStartedTask, filterGoal_execStage,
          filterGoal_sendMessage, Message.isGoal]
  | error e =>
      simp [sendErrorMessage, filterGoal_sendMessage, filterGoal_execStage,
        Message.isGoal]

/-! ### Per-exit facts about one iteration, and about the full loop -/

theorem stepLoop_shutdownCount (cfg : Config) (env : ApiEnv) (s : AgentState) :
    (((stepLoop cfg env s).1 = StepExit.notRunning ∨ (stepLoop cfg env s).1 = StepExit.next) →
      (stepLoop cfg env s).2.shutdownCount = s.shutdownCount) ∧
    (((stepLoop cfg env s).1 = StepExit.completedAll ∨
        (stepLoop cfg env s).1 = StepExit.loopLimit) →
      (stepLoop cfg env s).2.shutdownCount = s.shutdownCount + 1) := by
  rcases stepLoop_shape cfg env s with ⟨hr, h⟩ | ⟨hr, hrem, h⟩ |
      ⟨t, rest, hr, hrem, hb, h⟩ | ⟨t, rest, hr, hrem, hb, h⟩ <;> rw [h]
  · exact ⟨fun _ => by simp, fun hx => by rcases hx with hx | hx <;> simp at hx⟩
  · exact ⟨fun hx => by rcases hx with hx | hx <;> simp at hx,
      fun _ => by simp [sendCompletedMessage]⟩
  · exact ⟨fun hx => by rcases hx with hx | hx <;> simp at hx,
      fun _ => by simp [sendLoopMessage]⟩
  · exact ⟨fun _ => by simp [execBody_shutdownCount],
      fun hx => by rcases hx with hx | hx <;> simp at hx⟩

theorem countGoals_stepLoop (cfg : Config) (env : ApiEnv) (s : AgentState) :
    countGoals (stepLoop cfg env s).2 = countGoals s := by
  rcases stepLoop_shape cfg env s with ⟨hr, h⟩ | ⟨hr, hrem, h⟩ |
      ⟨t, rest, hr, hrem, hb, h⟩ | ⟨t, rest, hr, hrem, hb, h⟩ <;> rw [h]
  · simp
  · simp [countGoals, sendCompletedMessage, filterGoal_sendMessage, Message.isGoal]
  · simp [countGoals, sendLoopMessage, filterGoal_sendMessage, Message.isGoal]
  · rw [countGoals_execBody]
    simp [countGoals]

theorem countGoals_loopRun (cfg : Config) (env : ApiEnv) (fuel : Nat) (s : AgentState) :
    countGoals (loopRun cfg env fuel s).2 = countGoals s := by
  induction fuel generalizing s with
  | zero => rfl
  | succ n ih =>
      unfold loopRun
      rcases h : stepLoop cfg env s with ⟨exit, s1⟩
      have hc : countGoals s1 = countGoals s := by
        have h2 := countGoals_stepLoop cfg env s
        rw [h] at h2
        exact h2
      cases exit
      · simpa using hc
      · simpa using hc
      · simpa using hc
      · simpa [ih s1] using hc

theorem loopRun_shutdownCount (cfg : Config) (env : ApiEnv) (fuel : Nat) (s : AgentState) :
    (((loopRun cfg env fuel s).1 = StepExit.notRunning ∨
        (loopRun cfg env fuel s).1 = StepExit.next) →
      (loopRun cfg env fuel s).2.shutdownCount = s.shutdownCount) ∧
    (((loopRun cfg env fuel s).1 = StepExit.completedAll ∨
        (loopRun cfg env fuel s).1 = StepExit.loopLimit) →
      (loopRun cfg env fuel s).2.shutdownCount = s.shutdownCount + 1) := by
  induction fuel generalizing s with
  | zero =>
      refine ⟨fun _ => rfl, fun hx => ?_⟩
      rcases hx with hx | hx <;> simp [loopRun] at hx
  | succ n ih =>
      unfold loopRun
      rcases h : stepLoop cfg env s with ⟨exit, s1⟩
      have hsc := stepLoop_shutdownCount cfg env s
      rw [h] at hsc
      cases exit
      · exact ⟨fun _ => by simpa using hsc.1 (Or.inl rfl),
          fun hx => by rcases hx with hx | hx <;> simp at hx⟩
      · exact ⟨fun hx => by rcases hx with hx | hx <;> simp at hx,
          fun _ => by simpa using hsc.2 (Or.inl rfl)⟩
      · exact ⟨fun hx => by rcases hx with hx | hx <;> simp at hx,
          fun _ => by simpa using hsc.2 (Or.inr rfl)⟩
      · have hs1 : s1.shutdownCount = s.shutdownCount := by
          simpa using hsc.1 (Or.inr rfl)
        refine ⟨fun hx => ?_, fun hx => ?_⟩
        · have := (ih s1).1 (by simpa using hx)
          simpa [hs1] using this
        · have := (ih s1).2 (by simpa using hx)
          simpa [hs1] using this

theorem loopRun_succ (cfg : Config) (env : ApiEnv) (fuel : Nat) (s : AgentState) :
    loopRun cfg env (fuel + 1) s =
      match stepLoop cfg env s with
      | (StepExit.next, s1) => loopRun cfg env fuel s1
      | r => r := rfl

theorem run_of_not_running (cfg : Config) (env : ApiEnv) (fuel : Nat) (s : AgentState)
    (h : s.isRunning = false) :
    run cfg env fuel s =
      runTail cfg
        (loopRun cfg env fuel (startGoal cfg env { s with isRunning := true })).2 := by
  unfold run
  simp [h]

theorem run_of_running (cfg : Config) (env : ApiEnv) (fuel : Nat) (s : AgentState)
    (h : s.isRunning = true) :
    run cfg env fuel s = runTail cfg (loopRun cfg env fuel s).2 := by
  unfold run
  simp [h]

/-! ### Concrete fixtures used by witnesses and counterexamples -/

/-- An automatic-mode configuration with an explicit loop budget of 1. -/
def cfgAuto1 : Config :=
  { goal := "Plan a trip", modelSettings := { customMaxLoops := some 1 },
    mode := AgentMode.automatic, isWebSearchEnabled := false }

/-- A Stepwise (pause-mode) configuration with the default loop budget. -/
def cfgStep : Config :=
  { goal := "Plan a trip", modelSettings := { customMaxLoops := none },
    mode := AgentMode.pause, isWebSearchEnabled := false }

/-- A backend oracle returning one initial task and no follow-ups. -/
def envOne : ApiEnv :=
  { initialTasks := Except.ok ["Book flight"],
    analyzeTask := fun _ => defaultAnalysis,
    executeTask := fun _ _ => "result",
    getAdditionalTasks := fun _ _ => Except.ok [] }

/-- A backend oracle whose initial decomposition fails with HTTP 429. -/
def envFail429 : ApiEnv :=
  { initialTasks := Except.error (ApiError.axiosError (some 429)),
    analyzeTask := fun _ => defaultAnalysis,
    executeTask := fun _ _ => "result",
    getAdditionalTasks := fun _ _ => Except.ok [] }

/-- A backend oracle whose follow-up generation always fails. -/
def envFollowFail : ApiEnv :=
  { initialTasks := Except.ok ["Book flight", "Book hotel"],
    analyzeTask := fun _ => defaultAnalysis,
    executeTask := fun _ _ => "result",
    getAdditionalTasks := fun _ _ => Except.error ApiError.other }

/-- A pending task used in witness states. -/
def taskA : Task :=
  { taskId := "a", value := "Book flight", status := TaskStatus.started }

/-- A second pending task used in witness states. -/
def taskB : Task :=
  { taskId := "b", value := "Book hotel", status := TaskStatus.started }

/-- A mid-run state whose next budget check fires: `numLoops` already equals
the budget of `cfgAuto1` and a task is still pending. -/
def stateBudget : AgentState :=
  { isRunning := true, numLoops := 1, completedTasks := [],
    playbackControl := PlaybackControl.play, tasks := [taskA], messages := [],
    shutdownCount := 0, pauseCount := 0, nextId := 0 }

/-- A mid-run state at the start of a normal iteration with two pending
tasks and budget to spare. -/
def stateTwoTasks : AgentState :=
  { isRunning := true, numLoops := 0, completedTasks := [],
    playbackControl := PlaybackControl.play, tasks := [taskA, taskB], messages := [],
    shutdownCount := 0, pauseCount := 0, nextId := 0 }

/-! ### The claims -/

/-- C1: per iteration that passes the completion check (exit `loopLimit` or
`next`), `numLoops` grows by exactly 1 and otherwise stays put; when the
incremented counter exceeds `maxLoops`, the iteration emits the
budget-exceeded notice and invokes the shutdown hook while leaving the task
store untouched; and the loop only recurses (`next`) while the incremented
counter is within the budget, so iteration `maxLoops + 1` never begins. -/
theorem loop_budget_check (cfg : Config) (env : ApiEnv) (s : AgentState) :
    (((stepLoop cfg env s).1 = StepExit.loopLimit ∨ (stepLoop cfg env s).1 = StepExit.next) →
      (stepLoop cfg env s).2.numLoops = s.numLoops + 1) ∧
    (((stepLoop cfg env s).1 = StepExit.notRunning ∨
        (stepLoop cfg env s).1 = StepExit.completedAll) →
      (stepLoop cfg env s).2.numLoops = s.numLoops) ∧
    ((stepLoop cfg env s).1 = StepExit.loopLimit →
      maxLoops cfg < s.numLoops + 1 ∧
      (stepLoop cfg env s).2.tasks = s.tasks ∧
      (stepLoop cfg env s).2.messages =
        s.messages ++ [Message.system (translate "DEMO_LOOPS_REACHED" "errors")] ∧
      (stepLoop cfg env s).2.shutdownCount = s.shutdownCount + 1) ∧
    ((stepLoop cfg env s).1 = StepExit.next → s.numLoops + 1 ≤ maxLoops cfg) := by
  rcases stepLoop_shape cfg env s with ⟨hr, h⟩ | ⟨hr, hrem, h⟩ |
      ⟨t, rest, hr, hrem, hb, h⟩ | ⟨t, rest, hr, hrem, hb, h⟩ <;> rw [h]
  · refine ⟨fun hx => ?_, fun _ => by simp, fun hx => ?_, fun hx => ?_⟩
    · rcases hx with hx | hx <;> simp at hx
    · simp at hx
    · simp at hx
  · refine ⟨fun hx => ?_, fun _ => by simp [sendCompletedMessage], fun hx => ?_, fun hx => ?_⟩
    · rcases hx with hx | hx <;> simp at hx
    · simp at hx
    · simp at hx
  · refine ⟨fun _ => by simp [sendLoopMessage], fun hx => ?_, fun _ => ?_, fun hx => ?_⟩
    · rcases hx with hx | hx <;> simp at hx
    · refine ⟨hb, ?_, ?_, ?_⟩
      · simp [sendLoopMessage, sendMessage_tasks_nontask]
      · rw [shutdown_messages]
        unfold sendLoopMessage
        rw [sendMessage_messages_of_running _ _ (by simp [hr])]
        simp
      · simp [sendLoopMessage]
    · simp at hx
  · refine ⟨fun _ => ?_, fun hx => ?_, fun hx => ?_, fun _ => hb⟩
    · rw [execBody_numLoops]
    · rcases hx with hx | hx <;> simp at hx
    · simp at hx

/-- C1 witness: on `stateBudget` the budget check fires concretely. -/
theorem loop_budget_check_witness :
    (stepLoop cfgAuto1 envOne stateBudget).1 = StepExit.loopLimit ∧
    (stepLoop cfgAuto1 envOne stateBudget).2.numLoops = stateBudget.numLoops + 1 ∧
    maxLoops cfgAuto1 < stateBudget.numLoops + 1 ∧
    (stepLoop cfgAuto1 envOne stateBudget).2.tasks = stateBudget.tasks ∧
    (stepLoop cfgAuto1 envOne stateBudget).2.shutdownCount =
      stateBudget.shutdownCount + 1 := by
  have h := loop_budget_check cfgAuto1 envOne stateBudget
  refine ⟨by decide, h.1 (Or.inl (by decide)), ?_, ?_, ?_⟩
  · exact (h.2.2.1 (by decide)).1
  · exact (h.2.2.1 (by decide)).2.1
  · exact (h.2.2.1 (by decide)).2.2.2

/-- `startGoal` when the running flag is up and the decomposition returns the
empty sequence: just the goal message and the thinking placeholder. -/
theorem startGoal_ok_nil (cfg : Config) (env : ApiEnv) (s : AgentState)
    (hrun : s.isRunning = true) (hinit : env.initialTasks = Except.ok []) :
    startGoal cfg env s =
      { s with messages := s.messages ++ [Message.goal cfg.goal, Message.thinking] } := by
  unfold startGoal sendGoalMessage sendThinkingMessage
  rw [hinit]
  simp only [List.foldl_nil]
  rw [sendMessage_nontask_of_running _ _ hrun (by intro t h; cases h)]
  rw [sendMessage_nontask_of_running _ _ (by simp [hrun]) (by intro t h; cases h)]
  simp

/-- One iteration on an empty pending set (pause check passed) takes the
completion exit. -/
theorem stepLoop_of_empty (cfg : Config) (env : ApiEnv) (s : AgentState)
    (hrun : (conditionalPause cfg s).isRunning = true)
    (hempty : getRemainingTasks s = []) :
    stepLoop cfg env s =
      (StepExit.completedAll, shutdown (sendCompletedMessage (conditionalPause cfg s))) := by
  rcases stepLoop_shape cfg env s with ⟨hr, h⟩ | ⟨hr, hrem, h⟩ |
      ⟨t, rest, hr, hrem, hb, h⟩ | ⟨t, rest, hr, hrem, hb, h⟩
  · rw [hrun] at hr; cases hr
  · exact h
  · rw [hempty] at hrem; cases hrem
  · rw [hempty] at hrem; cases hrem

/-- C2: an iteration whose pause check leaves the agent running and whose
pending set is empty takes the completion exit: it emits exactly the
completion notice, invokes the shutdown hook, and leaves `numLoops` and the
task store unchanged (so no task is marked `Executing`); and a run whose
initial decomposition returns the empty sequence ends its very first
iteration this way, with only the goal message, the thinking placeholder and
the completion notice ever delivered. -/
theorem loop_completion_check :
    (∀ (cfg : Config) (env : ApiEnv) (s : AgentState),
      (conditionalPause cfg s).isRunning = true →
      getRemainingTasks s = [] →
      (stepLoop cfg env s).1 = StepExit.completedAll ∧
      (stepLoop cfg env s).2.messages =
        s.messages ++ [Message.system (translate "ALL_TASKS_COMPLETETD" "errors")] ∧
      (stepLoop cfg env s).2.shutdownCount = s.shutdownCount + 1 ∧
      (stepLoop cfg env s).2.numLoops = s.numLoops ∧
      (stepLoop cfg env s).2.tasks = s.tasks) ∧
    (∀ (cfg : Config) (env : ApiEnv) (fuel : Nat),
      cfg.mode = AgentMode.automatic →
      env.initialTasks = Except.ok [] →
      run cfg env (fuel + 1) (initialState cfg none) =
        { initialState cfg none with
            isRunning := true,
            messages := [Message.goal cfg.goal, Message.thinking,
              Message.system (translate "ALL_TASKS_COMPLETETD" "errors")],
            shutdownCount := 1 }) := by
  have key := stepLoop_of_empty
  constructor
  · intro cfg env s hrun hempty
    rw [key cfg env s hrun hempty]
    refine ⟨rfl, ?_, by simp [sendCompletedMessage], by simp [sendCompletedMessage],
      by simp [sendCompletedMessage, sendMessage_tasks_nontask]⟩
    rw [shutdown_messages]
    unfold sendCompletedMessage
    rw [sendMessage_messages_of_running _ _ hrun]
    simp
  · intro cfg env fuel hm hinit
    have hmne : cfg.mode ≠ AgentMode.pause := by rw [hm]; intro h; cases h
    have hpc : initPlaybackControl cfg.mode none = PlaybackControl.play := by
      rw [hm]; rfl
    rw [run_of_not_running cfg env _ _ rfl]
    have hstart : startGoal cfg env { initialState cfg none with isRunning := true } =
        { isRunning := true, numLoops := 0, completedTasks := [],
          playbackControl := PlaybackControl.play, tasks := [],
          messages := [Message.goal cfg.goal, Message.thinking],
          shutdownCount := 0, pauseCount := 0, nextId := 0 } := by
      rw [startGoal_ok_nil cfg env _ (by simp [initialState]) hinit]
      simp [initialState, hpc]
    rw [hstart]
    rw [loopRun_succ]
    rw [key cfg env
      ({ isRunning := true, numLoops := 0, completedTasks := [],
         playbackControl := PlaybackControl.play, tasks := [],
         messages := [Message.goal cfg.goal, Message.thinking],
         shutdownCount := 0, pauseCount := 0, nextId := 0 } : AgentState)
      (by rw [conditionalPause_of_not_pauseMode cfg _ hmne]) rfl]
    rw [conditionalPause_of_not_pauseMode cfg _ hmne]
    have hmsg : sendCompletedMessage
        ({ isRunning := true, numLoops := 0, completedTasks := [],
           playbackControl := PlaybackControl.play, tasks := [],
           messages := [Message.goal cfg.goal, Message.thinking],
           shutdownCount := 0, pauseCount := 0, nextId := 0 } : AgentState) =
        { isRunning := true, numLoops := 0, completedTasks := [],
          playbackControl := PlaybackControl.play, tasks := [],
          messages := [Message.goal cfg.goal, Message.thinking,
            Message.system (translate "ALL_TASKS_COMPLETETD" "errors")],
          shutdownCount := 0, pauseCount := 0, nextId := 0 } := by
      unfold sendCompletedMessage
      rw [sendMessage_nontask_of_running _ _ rfl (by intro t h; cases h)]
      rfl
    rw [hmsg]
    unfold runTail
    rw [if_neg (by simp [hm])]
    simp [initialState, hpc, shutdown]

/-- C2 witness: concrete completion on an empty pending set, and concrete
empty-decomposition bootstrap. -/
theorem loop_completion_check_witness :
    ((stepLoop cfgAuto1 envOne
        { stateBudget with tasks := [] }).1 = StepExit.completedAll ∧
      (stepLoop cfgAuto1 envOne { stateBudget with tasks := [] }).2.numLoops =
        ({ stateBudget with tasks := [] } : AgentState).numLoops) ∧
    run cfgAuto1
        { envOne with initialTasks := Except.ok [] } 1 (initialState cfgAuto1 none) =
      { initialState cfgAuto1 none with
          isRunning := true,
          messages := [Message.goal cfgAuto1.goal, Message.thinking,
            Message.system (translate "ALL_TASKS_COMPLETETD" "errors")],
          shutdownCount := 1 } := by
  have h1 := loop_completion_check.1 cfgAuto1 envOne
    { stateBudget with tasks := [] } (by decide) (by decide)
  have h2 := loop_completion_check.2 cfgAuto1
    { envOne with initialTasks := Except.ok [] } 0 rfl rfl
  exact ⟨⟨h1.1, h1.2.2.2.1⟩, h2⟩

theorem stepLoop_playbackControl (cfg : Config) (env : ApiEnv) (s : AgentState) :
    (stepLoop cfg env s).2.playbackControl = (conditionalPause cfg s).playbackControl := by
  rcases stepLoop_shape cfg env s with ⟨hr, h⟩ | ⟨hr, hrem, h⟩ |
      ⟨t, rest, hr, hrem, hb, h⟩ | ⟨t, rest, hr, hrem, hb, h⟩
  · rw [h]
  · rw [h]
    simp [sendCompletedMessage]
  · rw [h]
    simp [sendLoopMessage]
  · rw [h]
    rw [execBody_playbackControl]

/-- C3: an iteration started in Stepwise (pause) mode with the control at
`AGENT_PAUSE` only clears the running flag: the resulting state is the input
state with `isRunning := false`, so the loop counter, every task status, the
message log, the playback control and the shutdown counter are untouched. -/
theorem stepwise_pause_frame (cfg : Config) (env : ApiEnv) (s : AgentState)
    (hm : cfg.mode = AgentMode.pause)
    (hc : s.playbackControl = PlaybackControl.pause) :
    stepLoop cfg env s = (StepExit.notRunning, { s with isRunning := false }) := by
  simp only [stepLoop]
  rw [conditionalPause_pause cfg s hm hc]
  simp

/-- C3 witness: a concrete Stepwise iteration with the control at pause. -/
theorem stepwise_pause_frame_witness :
    stepLoop cfgStep envOne { stateTwoTasks with playbackControl := PlaybackControl.pause } =
      (StepExit.notRunning,
        { ({ stateTwoTasks with playbackControl := PlaybackControl.pause } : AgentState) with
            isRunning := false }) :=
  stepwise_pause_frame cfgStep envOne
    { stateTwoTasks with playbackControl := PlaybackControl.pause } rfl rfl

/-- C4: `updatePlayBackControl` is idempotent — requesting a step twice
before the loop consumes it leaves exactly the state one request leaves —
and a pending `AGENT_PLAY` authorizes exactly one iteration: the pause check
consumes it (running flag up, control reset to `AGENT_PAUSE`), the iteration
it starts ends with the control at `AGENT_PAUSE`, and the following
iteration takes the pause exit. -/
theorem step_request_idempotent_consume_once (cfg : Config) (s : AgentState)
    (hm : cfg.mode = AgentMode.pause) :
    (updatePlayBackControl (updatePlayBackControl s PlaybackControl.play)
        PlaybackControl.play =
      updatePlayBackControl s PlaybackControl.play) ∧
    (s.playbackControl = PlaybackControl.play →
      conditionalPause cfg s =
        { s with isRunning := true, playbackControl := PlaybackControl.pause } ∧
      (∀ env : ApiEnv,
        (stepLoop cfg env s).2.playbackControl = PlaybackControl.pause) ∧
      (∀ env env2 : ApiEnv,
        (stepLoop cfg env2 (stepLoop cfg env s).2).1 = StepExit.notRunning)) := by
  refine ⟨rfl, fun hc => ⟨conditionalPause_play cfg s hm hc, fun env => ?_, ?_⟩⟩
  · rw [stepLoop_playbackControl, conditionalPause_play cfg s hm hc]
  · intro env env2
    have hpc2 : (stepLoop cfg env s).2.playbackControl = PlaybackControl.pause := by
      rw [stepLoop_playbackControl, conditionalPause_play cfg s hm hc]
    rcases stepLoop_shape cfg env2 (stepLoop cfg env s).2 with ⟨hr, h⟩ | ⟨hr, hrem, h⟩ |
        ⟨t, rest, hr, hrem, hb, h⟩ | ⟨t, rest, hr, hrem, hb, h⟩
    · rw [h]
    · rw [conditionalPause_pause cfg _ hm hpc2] at hr
      simp at hr
    · rw [conditionalPause_pause cfg _ hm hpc2] at hr
      simp at hr
    · rw [conditionalPause_pause cfg _ hm hpc2] at hr
      simp at hr

/-- C4 witness: two pending step requests equal one on a concrete state, and
the consumed `AGENT_PLAY` pauses the iteration after next concretely. -/
theorem step_request_idempotent_consume_once_witness :
    (updatePlayBackControl (updatePlayBackControl stateTwoTasks PlaybackControl.play)
        PlaybackControl.play =
      updatePlayBackControl stateTwoTasks PlaybackControl.play) ∧
    conditionalPause cfgStep stateTwoTasks =
      { stateTwoTasks with isRunning := true, playbackControl := PlaybackControl.pause } ∧
    (stepLoop cfgStep envOne stateTwoTasks).2.playbackControl = PlaybackControl.pause ∧
    (stepLoop cfgStep envOne (stepLoop cfgStep envOne stateTwoTasks).2).1 =
      StepExit.notRunning := by
  have h := step_request_idempotent_consume_once cfgStep stateTwoTasks rfl
  have h2 := h.2 rfl
  exact ⟨h.1, h2.1, h2.2.1 envOne, h2.2.2 envOne envOne⟩

/-- C5 (code defect, constructor line 65): JS `||` binds tighter than `?:`,
so `playbackControl || this.mode == PAUSE_MODE ? AGENT_PAUSE : AGENT_PLAY`
yields `AGENT_PAUSE` whenever any initial control is provided — a Stepwise
agent constructed with `AGENT_PLAY` starts paused instead of playing.  Only
the provided-`AGENT_PAUSE` and the Automatic no-control cases match the
claimed behaviour. -/
theorem constructor_playback_control_eval :
    initPlaybackControl AgentMode.pause (some PlaybackControl.play) =
      PlaybackControl.pause ∧
    initPlaybackControl AgentMode.pause (some PlaybackControl.play) ≠
      PlaybackControl.play ∧
    initPlaybackControl AgentMode.pause (some PlaybackControl.pause) =
      PlaybackControl.pause ∧
    initPlaybackControl AgentMode.automatic none = PlaybackControl.play := by
  decide

/-- C6 (code defect, `getMessageFromError` lines 312-322): the `else` is
attached to the 404 test, so an axios error with HTTP status 429 gets the
generic access-error key, not the quota key; and after the failed bootstrap
`run()` still enters `loop()`, whose completion check emits a completion
notice and invokes the shutdown hook a second time. -/
theorem error_429_classification_eval :
    getMessageFromError (ApiError.axiosError (some 429)) =
      translate "ERROR_ACCESSING_OPENAI_API_KEY" "errors" ∧
    getMessageFromError (ApiError.axiosError (some 429)) ≠
      translate "ERROR_API_KEY_QUOTA" "errors" ∧
    (run cfgAuto1 envFail429 1 (initialState cfgAuto1 none)).messages =
      [Message.goal cfgAuto1.goal, Message.thinking,
       Message.system (translate "ERROR_ACCESSING_OPENAI_API_KEY" "errors"),
       Message.system (translate "ALL_TASKS_COMPLETETD" "errors")] := by
  decide

/-! ### Task-store bookkeeping for an iteration with failing follow-ups -/

theorem upsertTask_of_mem (tasks : List Task) (m u : Task) (hu : u ∈ tasks)
    (hid : u.taskId = m.taskId) :
    upsertTask tasks m = tasks.map (fun x => if x.taskId = m.taskId then m else x) := by
  unfold upsertTask
  rw [if_pos]
  rw [List.any_eq_true]
  exact ⟨u, hu, by simp [hid]⟩

theorem map_replace_comp (tasks : List Task) (a b : Task) (hab : a.taskId = b.taskId) :
    (tasks.map (fun x => if x.taskId = a.taskId then a else x)).map
        (fun x => if x.taskId = b.taskId then b else x) =
      tasks.map (fun x => if x.taskId = b.taskId then b else x) := by
  rw [List.map_map]
  apply List.map_congr_left
  intro x _
  simp only [Function.comp_apply]
  by_cases hx : x.taskId = a.taskId
  · rw [if_pos hx, if_pos hab, if_pos (by rw [hx, hab])]
  · rw [if_neg hx, if_neg (fun hxb => hx (by rw [hab]; exact hxb))]

theorem mem_of_remaining_head (s : AgentState) (t : Task) (rest : List Task)
    (hrem : getRemainingTasks s = t :: rest) : t ∈ s.tasks := by
  have ht : t ∈ getRemainingTasks s := by rw [hrem]; exact List.mem_cons_self t rest
  unfold getRemainingTasks at ht
  exact List.mem_of_mem_filter ht

/-- Replacing the unique store entry carrying the id of the head pending task by a
non-`Started` record removes exactly that head from the pending view. -/
theorem remaining_after_replace (tasks : List Task) (t b : Task) (rest : List Task)
    (hbs : b.status ≠ TaskStatus.started)
    (hnd : (tasks.map Task.taskId).Nodup)
    (hf : tasks.filter (fun u => u.status = TaskStatus.started) = t :: rest) :
    (tasks.map (fun x => if x.taskId = t.taskId then b else x)).filter
        (fun u => u.status = TaskStatus.started) = rest := by
  induction tasks generalizing rest with
  | nil => cases hf
  | cons u us ih =>
      rw [List.map_cons, List.nodup_cons] at hnd
      by_cases hu : u.status = TaskStatus.started
      · rw [List.filter_cons_of_pos (by simp [hu])] at hf
        injection hf with hut hrest
        subst hut
        rw [List.map_cons, if_pos rfl]
        rw [List.filter_cons_of_neg (by simp [hbs])]
        have hall : ∀ x ∈ us, (if x.taskId = u.taskId then b else x) = x := by
          intro x hx
          rw [if_neg]
          intro hxe
          exact hnd.1 (hxe ▸ List.mem_map_of_mem Task.taskId hx)
        rw [List.map_congr_left hall]
        rw [show us.map (fun x => x) = us from by simp]
        exact hrest
      · rw [List.filter_cons_of_neg (by simp [hu])] at hf
        have htus : t ∈ us := by
          have hmem : t ∈ us.filter (fun v => v.status = TaskStatus.started) := by
            rw [hf]; exact List.mem_cons_self t rest
          exact List.mem_of_mem_filter hmem
        have hune : ¬ u.taskId = t.taskId := fun hue =>
          hnd.1 (by rw [hue]; exact List.mem_map_of_mem Task.taskId htus)
        rw [List.map_cons, if_neg hune]
        rw [List.filter_cons_of_neg (by simp [hu])]
        exact ih rest hnd.2 hf

/-- Evaluation of the execute phase (web search disabled, agent running,
current task present in the store): the store entry is driven
`Executing` then `Completed` with the execution result attached, the value
is recorded, and the four phase messages are delivered. -/
theorem execStage_eval (cfg : Config) (env : ApiEnv) (s : AgentState) (t : Task)
    (hws : cfg.isWebSearchEnabled = false)
    (hrun : s.isRunning = true)
    (hmem : t ∈ s.tasks) :
    execStage cfg env s t =
      ({ s with
          completedTasks := s.completedTasks ++ [t.value],
          tasks := s.tasks.map (fun x =>
            if x.taskId = t.taskId then
              { t with
                  info := some (env.executeTask t.value defaultAnalysis),
                  status := TaskStatus.completed }
            else x),
          messages := s.messages ++
            [Message.task { t with status := TaskStatus.executing },
             Message.thinking,
             Message.task
               { t with
                   info := some (env.executeTask t.value defaultAnalysis),
                   status := TaskStatus.completed },
             Message.thinking] },
       env.executeTask t.value defaultAnalysis) := by
  unfold execStage sendThinkingMessage
  rw [hws]
  simp only [Bool.false_eq_true, if_false]
  rw [sendMessage_task_of_running _ _ hrun]
  rw [sendMessage_nontask_of_running _ _ (by simpa using hrun) (by intro x h; cases h)]
  rw [sendMessage_task_of_running _ _ (by simpa using hrun)]
  rw [sendMessage_nontask_of_running _ _ (by simpa using hrun) (by intro x h; cases h)]
  have h1 := upsertTask_of_mem s.tasks { t with status := TaskStatus.executing } t hmem rfl
  have h2 := upsertTask_of_mem
    (s.tasks.map (fun x =>
      if x.taskId = ({ t with status := TaskStatus.executing } : Task).taskId then { t with status := TaskStatus.executing } else x))
    { t with info := some (env.executeTask t.value defaultAnalysis), status := TaskStatus.completed }
    { t with status := TaskStatus.executing }
    (List.mem_map.mpr ⟨t, hmem, by rw [if_pos rfl]⟩) rfl
  have h3 := map_replace_comp s.tasks { t with status := TaskStatus.executing }
    { t with info := some (env.executeTask t.value defaultAnalysis), status := TaskStatus.completed } rfl
  simp [h1, h2, h3, List.append_assoc]

/-- Evaluation of one full iteration body whose follow-up call fails: on top
of the execute phase, the degraded-mode notice is delivered and the current
task is marked `Final`; no shutdown and no new task. -/
theorem execBody_error_eval (cfg : Config) (env : ApiEnv) (s : AgentState) (t : Task)
    (e : ApiError)
    (hws : cfg.isWebSearchEnabled = false)
    (hrun : s.isRunning = true)
    (hmem : t ∈ s.tasks)
    (herr : followUpResponse cfg env s t = Except.error e) :
    execBody cfg env s t =
      { s with
          completedTasks := s.completedTasks ++ [t.value],
          tasks := s.tasks.map (fun x =>
            if x.taskId = t.taskId then { t with status := TaskStatus.final } else x),
          messages := s.messages ++
            [Message.task { t with status := TaskStatus.executing },
             Message.thinking,
             Message.task
               { t with
                   info := some (env.executeTask t.value defaultAnalysis),
                   status := TaskStatus.completed },
             Message.thinking,
             Message.system (translate "ERROR_ADDING_ADDITIONAL_TASKS" "errors"),
             Message.task { t with status := TaskStatus.final }] } := by
  unfold execBody sendErrorMessage
  rw [herr]
  rw [execStage_eval cfg env s t hws hrun hmem]
  have h2 := upsertTask_of_mem
    (s.tasks.map (fun x =>
      if x.taskId = ({ t with info := some (env.executeTask t.value defaultAnalysis), status := TaskStatus.completed } : Task).taskId then { t with info := some (env.executeTask t.value defaultAnalysis), status := TaskStatus.completed } else x))
    { t with status := TaskStatus.final }
    { t with info := some (env.executeTask t.value defaultAnalysis), status := TaskStatus.completed }
    (List.mem_map.mpr ⟨t, hmem, by rw [if_pos rfl]⟩) rfl
  have h3 := map_replace_comp s.tasks
    { t with info := some (env.executeTask t.value defaultAnalysis), status := TaskStatus.completed }
    { t with status := TaskStatus.final } rfl
  simp [sendMessage_nontask_of_running, sendMessage_task_of_running, hrun, h2, h3,
    List.append_assoc]

/-- C7: an iteration (Automatic mode, web search off, agent running, head
pending task `t`, budget not yet exhausted, store ids distinct) whose
follow-up call fails does not abort the run: the iteration ends in the
recursion exit with the degraded-mode notice delivered, `t` driven
`Executing` → `Completed` → `Final` in the store, no follow-up task added,
the shutdown hook not invoked, and the pending view reduced to exactly the
remaining tasks, ready for the next iteration. -/
theorem followup_failure_degrades (cfg : Config) (env : ApiEnv) (s : AgentState)
    (t : Task) (rest : List Task) (e : ApiError)
    (hm : cfg.mode = AgentMode.automatic)
    (hws : cfg.isWebSearchEnabled = false)
    (hrun : s.isRunning = true)
    (hrem : getRemainingTasks s = t :: rest)
    (hb : s.numLoops + 1 ≤ maxLoops cfg)
    (hnd : (s.tasks.map Task.taskId).Nodup)
    (herr : followUpResponse cfg env { s with numLoops := s.numLoops + 1 } t =
      Except.error e) :
    (stepLoop cfg env s).1 = StepExit.next ∧
    (stepLoop cfg env s).2 =
      { s with
          numLoops := s.numLoops + 1,
          completedTasks := s.completedTasks ++ [t.value],
          tasks := s.tasks.map (fun x =>
            if x.taskId = t.taskId then { t with status := TaskStatus.final } else x),
          messages := s.messages ++
            [Message.task { t with status := TaskStatus.executing },
             Message.thinking,
             Message.task
               { t with
                   info := some (env.executeTask t.value defaultAnalysis),
                   status := TaskStatus.completed },
             Message.thinking,
             Message.system (translate "ERROR_ADDING_ADDITIONAL_TASKS" "errors"),
             Message.task { t with status := TaskStatus.final }] } ∧
    getRemainingTasks (stepLoop cfg env s).2 = rest := by
  have hmne : cfg.mode ≠ AgentMode.pause := by rw [hm]; intro hx; cases hx
  have hcp : conditionalPause cfg s = s := conditionalPause_of_not_pauseMode cfg s hmne
  rcases stepLoop_shape cfg env s with ⟨hr, h⟩ | ⟨hr, hrem2, h⟩ |
      ⟨t2, rest2, hr, hrem2, hb2, h⟩ | ⟨t2, rest2, hr, hrem2, hb2, h⟩
  · rw [hcp, hrun] at hr; cases hr
  · rw [hrem] at hrem2; cases hrem2
  · omega
  · rw [hrem] at hrem2
    injection hrem2 with ht2 hrest2
    subst ht2
    rw [hcp] at h
    have hbody := execBody_error_eval cfg env { s with numLoops := s.numLoops + 1 } t e
      hws (by simpa using hrun) (by simpa using mem_of_remaining_head s t rest hrem) herr
    rw [hbody] at h
    rw [h]
    refine ⟨rfl, by simp, ?_⟩
    unfold getRemainingTasks at hrem ⊢
    simp only []
    exact remaining_after_replace s.tasks t _ rest (by simp) hnd hrem

/-- C7 witness: with a backend whose follow-up generation always throws, the
iteration on "Book flight" continues into the next iteration, leaves the
shutdown counter untouched, and leaves "Book hotel" as the pending head. -/
theorem followup_failure_degrades_witness :
    (stepLoop cfgAuto1 envFollowFail stateTwoTasks).1 = StepExit.next ∧
    getRemainingTasks (stepLoop cfgAuto1 envFollowFail stateTwoTasks).2 = [taskB] ∧
    (stepLoop cfgAuto1 envFollowFail stateTwoTasks).2.shutdownCount =
      stateTwoTasks.shutdownCount := by
  have h := followup_failure_degrades cfgAuto1 envFollowFail stateTwoTasks taskA [taskB]
    ApiError.other rfl rfl rfl (by decide) (by decide) (by decide) rfl
  exact ⟨h.1, h.2.2, by rw [h.2.1]⟩

/-- `startGoal` when the decomposition fails: goal message, thinking
placeholder, classified error message, and one shutdown invocation. -/
theorem startGoal_error_eval (cfg : Config) (env : ApiEnv) (s : AgentState) (e : ApiError)
    (hrun : s.isRunning = true) (hinit : env.initialTasks = Except.error e) :
    startGoal cfg env s =
      { s with
          messages := s.messages ++ [Message.goal cfg.goal, Message.thinking,
            Message.system (getMessageFromError e)],
          shutdownCount := s.shutdownCount + 1 } := by
  simp [startGoal, sendGoalMessage, sendThinkingMessage, sendErrorMessage, hinit,
    sendMessage_nontask_of_running, hrun, shutdown, List.append_assoc]

/-- C8 counterexample: on a run whose initial decomposition fails, the
shutdown hook fires twice — once in the bootstrap error handler and once
more in the completion check of the loop, which `run()` still enters. -/
theorem shutdown_twice_on_failed_bootstrap :
    (run cfgAuto1 envFail429 1 (initialState cfgAuto1 none)).shutdownCount = 2 := by
  decide

/-- C8 (amended): inside the iteration loop the shutdown hook is invoked
exactly once per run, on the terminal exit (completion or budget), and never
on a pause/stop exit or before recursing; but the fatal-decomposition path
invokes it twice, because `run()` enters the loop even after the bootstrap
error handler has already shut the agent down. -/
theorem shutdown_once_per_loop (cfg : Config) (env : ApiEnv) (fuel : Nat) :
    (∀ s : AgentState,
      (((loopRun cfg env fuel s).1 = StepExit.completedAll ∨
          (loopRun cfg env fuel s).1 = StepExit.loopLimit) →
        (loopRun cfg env fuel s).2.shutdownCount = s.shutdownCount + 1) ∧
      (((loopRun cfg env fuel s).1 = StepExit.notRunning ∨
          (loopRun cfg env fuel s).1 = StepExit.next) →
        (loopRun cfg env fuel s).2.shutdownCount = s.shutdownCount)) ∧
    (∀ e : ApiError,
      cfg.mode = AgentMode.automatic →
      env.initialTasks = Except.error e →
      (run cfg env (fuel + 1) (initialState cfg none)).shutdownCount = 2) := by
  constructor
  · intro s
    exact ⟨(loopRun_shutdownCount cfg env fuel s).2, (loopRun_shutdownCount cfg env fuel s).1⟩
  · intro e hm hinit
    have hmne : cfg.mode ≠ AgentMode.pause := by rw [hm]; intro hx; cases hx
    rw [run_of_not_running cfg env _ _ rfl]
    have hsg : startGoal cfg env { initialState cfg none with isRunning := true } =
        { isRunning := true, numLoops := 0, completedTasks := [],
          playbackControl := initPlaybackControl cfg.mode none, tasks := [],
          messages := [Message.goal cfg.goal, Message.thinking,
            Message.system (getMessageFromError e)],
          shutdownCount := 1, pauseCount := 0, nextId := 0 } := by
      rw [startGoal_error_eval cfg env _ e (by simp [initialState]) hinit]
      simp [initialState]
    rw [hsg]
    rw [loopRun_succ]
    rw [stepLoop_of_empty cfg env
      ({ isRunning := true, numLoops := 0, completedTasks := [],
         playbackControl := initPlaybackControl cfg.mode none, tasks := [],
         messages := [Message.goal cfg.goal, Message.thinking,
           Message.system (getMessageFromError e)],
         shutdownCount := 1, pauseCount := 0, nextId := 0 } : AgentState)
      (by rw [conditionalPause_of_not_pauseMode cfg _ hmne]) rfl]
    rw [conditionalPause_of_not_pauseMode cfg _ hmne]
    unfold runTail
    rw [if_neg (by simp [hm])]
    simp [sendCompletedMessage, initialState]

/-- C8 witness: the loop-level exactly-once facts at concrete inputs. -/
theorem shutdown_once_per_loop_witness :
    (loopRun cfgAuto1 envOne 3 stateTwoTasks).1 = StepExit.loopLimit ∧
    (loopRun cfgAuto1 envOne 3 stateTwoTasks).2.shutdownCount =
      stateTwoTasks.shutdownCount + 1 ∧
    (run cfgAuto1 envFail429 1 (initialState cfgAuto1 none)).shutdownCount = 2 := by
  have h := shutdown_once_per_loop cfgAuto1 envOne 3
  have h2 := shutdown_once_per_loop cfgAuto1 envFail429 0
  refine ⟨by decide, (h.1 stateTwoTasks).1 (Or.inr (by decide)), ?_⟩
  exact h2.2 (ApiError.axiosError (some 429)) rfl rfl

theorem countGoals_startGoal (cfg : Config) (env : ApiEnv) (s : AgentState)
    (hrun : s.isRunning = true) :
    countGoals (startGoal cfg env s) = countGoals s + 1 := by
  cases hinit : env.initialTasks with
  | ok vs =>
      simp [startGoal, sendGoalMessage, sendThinkingMessage, countGoals, hinit,
        filterGoal_foldl_addStartedTask, filterGoal_sendMessage, Message.isGoal,
        sendMessage_messages_of_running, hrun, List.filter_append]
  | error e =>
      simp [startGoal, sendGoalMessage, sendThinkingMessage, sendErrorMessage, countGoals,
        hinit, filterGoal_sendMessage, Message.isGoal,
        sendMessage_messages_of_running, hrun, List.filter_append]

theorem countGoals_runTail (cfg : Config) (s : AgentState) :
    countGoals (runTail cfg s) = countGoals s := by
  unfold runTail
  split
  · simp
  · rfl

/-- C9 counterexample: a Stepwise agent pauses its first `run()`; calling
`run()` again to resume finds the running flag down and repeats the whole
bootstrap, delivering a second goal message (and re-requesting the initial
decomposition). -/
theorem bootstrap_repeats_after_pause :
    countGoals (run cfgStep envOne 1 (run cfgStep envOne 1 (initialState cfgStep none))) =
      2 := by
  decide

/-- C9 (amended): the bootstrap — whose goal message is delivered exactly
once per execution of it — runs on precisely the invocations of `run`
entered with the running flag down: such an invocation delivers exactly one
more goal message, while an invocation entered with the flag up delivers
none.  A resume after a Stepwise pause enters with the flag down, so it
repeats the bootstrap unless the caller restores the flag first. -/
theorem bootstrap_iff_entered_not_running (cfg : Config) (env : ApiEnv) (fuel : Nat)
    (s : AgentState) :
    (s.isRunning = true → countGoals (run cfg env fuel s) = countGoals s) ∧
    (s.isRunning = false → countGoals (run cfg env fuel s) = countGoals s + 1) := by
  constructor
  · intro h
    rw [run_of_running cfg env fuel s h]
    rw [countGoals_runTail, countGoals_loopRun]
  · intro h
    rw [run_of_not_running cfg env fuel s h]
    rw [countGoals_runTail, countGoals_loopRun]
    rw [countGoals_startGoal cfg env _ (by simp)]
    simp [countGoals]

/-- C9 witness: one bootstrap on a fresh (not-running) agent, none on a
running one. -/
theorem bootstrap_iff_entered_not_running_witness :
    countGoals (run cfgStep envOne 1 (initialState cfgStep none)) =
      countGoals (initialState cfgStep none) + 1 ∧
    countGoals (run cfgAuto1 envOne 1 stateTwoTasks) = countGoals stateTwoTasks := by
  exact ⟨(bootstrap_iff_entered_not_running cfgStep envOne 1
      (initialState cfgStep none)).2 rfl,
    (bootstrap_iff_entered_not_running cfgAuto1 envOne 1 stateTwoTasks).1 rfl⟩

/-- C10: `sendMessage` delivers if and only if the running flag is up — with
the flag down it is the identity (the message is silently dropped), with the
flag up the message reaches the sink log — and `stopAgent` on an
already-stopped agent emits nothing yet still invokes the shutdown hook
exactly once. -/
theorem messages_only_while_running (s : AgentState) (m : Message) :
    (s.isRunning = false → sendMessage s m = s) ∧
    (s.isRunning = true → (sendMessage s m).messages = s.messages ++ [m]) ∧
    (s.isRunning = false →
      stopAgent s = { s with shutdownCount := s.shutdownCount + 1 }) := by
  refine ⟨fun h => sendMessage_of_not_running s m h,
    fun h => sendMessage_messages_of_running s m h, fun h => ?_⟩
  unfold stopAgent sendManualShutdownMessage
  rw [sendMessage_of_not_running _ _ h]
  have hs : ({ s with isRunning := false } : AgentState) = s := by
    obtain ⟨a, b, c, d, e, f, g, h2, i⟩ := s
    simp only at h
    rw [h]
  simp [hs, shutdown, h]

/-- C10 witness: a thinking message is dropped by a stopped agent and
delivered by a running one; `stopAgent` on the stopped agent only bumps the
shutdown counter. -/
theorem messages_only_while_running_witness :
    sendMessage { stateTwoTasks with isRunning := false } Message.thinking =
      { stateTwoTasks with isRunning := false } ∧
    (sendMessage stateTwoTasks Message.thinking).messages =
      stateTwoTasks.messages ++ [Message.thinking] ∧
    stopAgent { stateTwoTasks with isRunning := false } =
      { ({ stateTwoTasks with isRunning := false } : AgentState) with
          shutdownCount :=
            ({ stateTwoTasks with isRunning := false } : AgentState).shutdownCount + 1 } := by
  exact ⟨(messages_only_while_running { stateTwoTasks with isRunning := false }
      Message.thinking).1 rfl,
    (messages_only_while_running stateTwoTasks Message.thinking).2.1 rfl,
    (messages_only_while_running { stateTwoTasks with isRunning := false }
      Message.thinking).2.2 rfl⟩

end AgentGPT
